import Mathlib

/-!
Shallow embedding of the plan-entitlement and usage-gating engine of the
ProspectAI frontend: the upgrade store (`src/stores/upgradeStore.ts`, given as
`src/unnamed/part_007`), the plan-limit hook (`src/frontend/src/hooks/usePlanLimits.ts`),
the API error classifier (`src/frontend/src/lib/api.ts`) and the plan catalog
(`PlanSelectionModal`, given in `src/unnamed/part_000`), together with theorems
checking the specification's testable properties against these definitions.
-/

namespace ProspectAI

/-- The closed union type `UpgradeReason` of `upgradeStore.ts`. -/
inductive UpgradeReason where
  | leads_limit
  | agents_limit
  | campaigns_limit
  | whatsapp
  | whatsapp_official
  | advanced_filters
  | funnel_reports
  | campaign_comparison
  | crm_integration
  | priority_support
  | sso
  | general
deriving DecidableEq, Fintype, Repr

/-- The `UpgradeContext` interface of `upgradeStore.ts`.  Optional fields become
`Option`; the `suggestedPlan` union `'starter' | 'pro' | 'scale'` is carried as a
string, as the surrounding code manipulates plan tiers as strings. -/
structure UpgradeContext where
  reason : UpgradeReason
  currentValue : Option Int := none
  limitValue : Option Int := none
  featureName : Option String := none
  suggestedPlan : Option String := none
  customMessage : Option String := none
deriving DecidableEq, Repr

/-- The observable state of the zustand upgrade store: the `isOpen` flag and the
current `context` (`null` becomes `none`). -/
structure UpgradeState where
  isOpen : Bool
  context : Option UpgradeContext
deriving DecidableEq, Repr

/-- The static table `MINIMUM_PLAN_FOR_FEATURE` of `upgradeStore.ts`:
minimum plan suggested for each upgrade reason. -/
def MINIMUM_PLAN_FOR_FEATURE : UpgradeReason → String
  | .leads_limit => "starter"
  | .agents_limit => "starter"
  | .campaigns_limit => "starter"
  | .whatsapp => "starter"
  | .whatsapp_official => "pro"
  | .advanced_filters => "starter"
  | .funnel_reports => "starter"
  | .campaign_comparison => "pro"
  | .crm_integration => "pro"
  | .priority_support => "scale"
  | .sso => "scale"
  | .general => "starter"

/-- The plan order `['free', 'starter', 'pro', 'scale']` used by `getNextPlan`
and `getSuggestedPlan`. -/
def planOrder : List String := ["free", "starter", "pro", "scale"]

/-- JavaScript `Array.prototype.indexOf`: index of the first occurrence, `-1`
when absent. -/
def jsIndexOf : List String → String → Int
  | [], _ => -1
  | x :: xs, s =>
    if x = s then 0
    else
      let r := jsIndexOf xs s
      if r = -1 then -1 else r + 1

/-- `getNextPlan` of `upgradeStore.ts`: the plan immediately above the current
one in `planOrder`; `null` (here `none`) when the plan is unknown or already the
top plan. -/
def getNextPlan (currentPlan : String) : Option String :=
  let currentIndex := jsIndexOf planOrder currentPlan
  if currentIndex = -1 ∨ currentIndex ≥ (planOrder.length : Int) - 1 then
    none
  else
    some (planOrder.getD (currentIndex + 1).toNat "")

/-- `getSuggestedPlan` of `upgradeStore.ts`: the greater (by position in
`planOrder`) of the next plan and the minimum plan for the feature; `"scale"`
when there is no next plan. -/
def getSuggestedPlan (currentPlan : String) (reason : UpgradeReason) : String :=
  let minimumPlan := MINIMUM_PLAN_FOR_FEATURE reason
  match getNextPlan currentPlan with
  | none => "scale"
  | some nextPlan =>
    let nextPlanIndex := jsIndexOf planOrder nextPlan
    let minimumPlanIndex := jsIndexOf planOrder minimumPlan
    if nextPlanIndex ≥ minimumPlanIndex then nextPlan else minimumPlan

/-- `openUpgradeModal` of `upgradeStore.ts`: opens the modal and stores the
context, defaulting `suggestedPlan` to `MINIMUM_PLAN_FOR_FEATURE[context.reason]`
when the caller did not set it (the JavaScript `||` default). -/
def openUpgradeModal (context : UpgradeContext) : UpgradeState :=
  { isOpen := true
    context := some { context with
      suggestedPlan := some (context.suggestedPlan.getD (MINIMUM_PLAN_FOR_FEATURE context.reason)) } }

/-- `closeUpgradeModal` of `upgradeStore.ts`. -/
def closeUpgradeModal : UpgradeState :=
  { isOpen := false, context := none }

/-- `showLeadsLimitReached` of `upgradeStore.ts`. -/
def showLeadsLimitReached (used limit : Int) : UpgradeState :=
  { isOpen := true
    context := some { reason := .leads_limit
                      currentValue := some used
                      limitValue := some limit
                      suggestedPlan := some "starter" } }

/-- `showAgentsLimitReached` of `upgradeStore.ts`; note that it hardcodes
`suggestedPlan: 'pro'`. -/
def showAgentsLimitReached (used limit : Int) : UpgradeState :=
  { isOpen := true
    context := some { reason := .agents_limit
                      currentValue := some used
                      limitValue := some limit
                      suggestedPlan := some "pro" } }

/-- `showCampaignsLimitReached` of `upgradeStore.ts`. -/
def showCampaignsLimitReached (used limit : Int) : UpgradeState :=
  { isOpen := true
    context := some { reason := .campaigns_limit
                      currentValue := some used
                      limitValue := some limit
                      suggestedPlan := some "starter" } }

/-- `showFeatureRequired` of `upgradeStore.ts`. -/
def showFeatureRequired (featureName suggestedPlan : String) : UpgradeState :=
  { isOpen := true
    context := some { reason := .general
                      featureName := some featureName
                      suggestedPlan := some suggestedPlan } }

/-- The `UsageLimits` interface of `usePlanLimits.ts`: the usage/limits snapshot
fetched from `/dashboard/usage-limits`.  Numeric fields are integers (`-1` is
the unlimited sentinel). -/
structure UsageLimits where
  plan_tier : String
  leads_limit : Int
  leads_used : Int
  leads_remaining : Int
  agents_limit : Int
  agents_used : Int
  agents_remaining : Int
  campaigns_limit : Int
  campaigns_used : Int
  campaigns_remaining : Int
  whatsapp_enabled : Bool
  whatsapp_official_api : Bool
  advanced_filters : Bool
  funnel_reports : Bool
  campaign_comparison : Bool
  crm_integration : Bool
  priority_support : Bool
  sso : Bool
deriving DecidableEq, Repr

/-- `canCreateLead` of `usePlanLimits.ts`.  The hook's `usageLimits` state
(`null` before the snapshot loads) is passed explicitly as `Option UsageLimits`. -/
def canCreateLead (usageLimits : Option UsageLimits) : Bool :=
  match usageLimits with
  | none => true
  | some u =>
    if u.leads_limit = -1 then true
    else u.leads_used < u.leads_limit

/-- `canCreateAgent` of `usePlanLimits.ts`. -/
def canCreateAgent (usageLimits : Option UsageLimits) : Bool :=
  match usageLimits with
  | none => true
  | some u =>
    if u.agents_limit = -1 then true
    else u.agents_used < u.agents_limit

/-- `canCreateCampaign` of `usePlanLimits.ts`. -/
def canCreateCampaign (usageLimits : Option UsageLimits) : Bool :=
  match usageLimits with
  | none => true
  | some u =>
    if u.campaigns_limit = -1 then true
    else u.campaigns_used < u.campaigns_limit

/-- `checkLeadsLimit` of `usePlanLimits.ts`.  The returned pair is the boolean
result together with the upgrade-store state set by `showLeadsLimitReached`
when the limit is reached (`none` when no modal is raised). -/
def checkLeadsLimit (usageLimits : Option UsageLimits) : Bool × Option UpgradeState :=
  match usageLimits with
  | none => (true, none)
  | some u =>
    if u.leads_limit = -1 then (true, none)
    else if u.leads_used ≥ u.leads_limit then
      (false, some (showLeadsLimitReached u.leads_used u.leads_limit))
    else (true, none)

/-- `checkAgentsLimit` of `usePlanLimits.ts`. -/
def checkAgentsLimit (usageLimits : Option UsageLimits) : Bool × Option UpgradeState :=
  match usageLimits with
  | none => (true, none)
  | some u =>
    if u.agents_limit = -1 then (true, none)
    else if u.agents_used ≥ u.agents_limit then
      (false, some (showAgentsLimitReached u.agents_used u.agents_limit))
    else (true, none)

/-- `checkCampaignsLimit` of `usePlanLimits.ts`. -/
def checkCampaignsLimit (usageLimits : Option UsageLimits) : Bool × Option UpgradeState :=
  match usageLimits with
  | none => (true, none)
  | some u =>
    if u.campaigns_limit = -1 then (true, none)
    else if u.campaigns_used ≥ u.campaigns_limit then
      (false, some (showCampaignsLimitReached u.campaigns_used u.campaigns_limit))
    else (true, none)

/-- `suggestedPlan.charAt(0).toUpperCase() + suggestedPlan.slice(1)` from
`checkFeature` of `usePlanLimits.ts`. -/
def capitalizeFirst (s : String) : String :=
  match s.toList with
  | [] => ""
  | c :: cs => String.mk (c.toUpper :: cs)

/-- `checkFeature` of `usePlanLimits.ts`.  The `feature: keyof UsageLimits`
argument (used in the source only with the boolean feature-flag fields) is
embedded as a boolean field selector.  The returned pair is the boolean result
together with the upgrade-store state set by `openUpgradeModal` when the feature
is missing. -/
def checkFeature (usageLimits : Option UsageLimits) (feature : UsageLimits → Bool)
    (featureName : String) (suggestedPlan : String) : Bool × Option UpgradeState :=
  match usageLimits with
  | none => (true, none)
  | some u =>
    let hasFeature := feature u
    if !hasFeature then
      (false, some (openUpgradeModal
        { reason := .general
          featureName := some featureName
          suggestedPlan := some suggestedPlan
          customMessage := some (featureName ++ " não está disponível no seu plano atual. Faça upgrade para " ++ capitalizeFirst suggestedPlan ++ " ou superior.") }))
    else (true, none)

/-- The static table `ERROR_TO_UPGRADE_REASON` of `api.ts`, in source order
(`Object.entries` preserves the insertion order of these string keys). -/
def ERROR_TO_UPGRADE_REASON : List (String × UpgradeReason) :=
  [("limite de leads", .leads_limit),
   ("limite de prospects", .leads_limit),
   ("limite de agentes", .agents_limit),
   ("limite de campanhas", .campaigns_limit),
   ("whatsapp", .whatsapp),
   ("api oficial", .whatsapp_official),
   ("filtros avançados", .advanced_filters),
   ("relatórios de funil", .funnel_reports),
   ("funil", .funnel_reports),
   ("comparação de campanhas", .campaign_comparison),
   ("comparativo", .campaign_comparison),
   ("integração crm", .crm_integration),
   ("crm", .crm_integration),
   ("suporte prioritário", .priority_support),
   ("sso", .sso)]

/-- JavaScript `errorMessage.toLowerCase()`, character by character (as with
`Char.toLower`, only ASCII letters change case). -/
def jsToLowerCase (s : String) : String :=
  String.mk (s.toList.map Char.toLower)

/-- JavaScript `message.includes(keyword)`: `keyword` occurs as a contiguous
substring of `message`, at the level of characters. -/
def includesSubstr (message keyword : String) : Bool :=
  decide (keyword.toList <:+: message.toList)

/-- The `for (const [keyword, reason] of Object.entries(...))` loop of
`detectUpgradeReason`: the reason of the first table entry whose keyword occurs
in the message, `general` when none does. -/
def firstMatch : List (String × UpgradeReason) → String → UpgradeReason
  | [], _ => .general
  | (keyword, reason) :: rest, lowerMessage =>
    if includesSubstr lowerMessage keyword then reason
    else firstMatch rest lowerMessage

/-- `detectUpgradeReason` of `api.ts`. -/
def detectUpgradeReason (errorMessage : String) : UpgradeReason :=
  let lowerMessage := jsToLowerCase errorMessage
  firstMatch ERROR_TO_UPGRADE_REASON lowerMessage

/-- The 403 branch of the response interceptor of `api.ts`: classify the
response detail and open the upgrade modal with the classified reason, the
detail as custom message, and the table plan as suggested plan. -/
def interceptorOn403 (detail : String) : UpgradeState :=
  let reason := detectUpgradeReason detail
  openUpgradeModal
    { reason := reason
      customMessage := some detail
      suggestedPlan := some (MINIMUM_PLAN_FOR_FEATURE reason) }

/-- One `{ name, included }` entry of a plan's `features` array in the
`PlanSelectionModal` component. -/
structure PlanFeature where
  name : String
  included : Bool
deriving DecidableEq, Repr

/-- The `limits` record of a plan in the `PlanSelectionModal` component: the
quota display strings for prospects, agents and campaigns. -/
structure PlanLimits where
  prospects : String
  agents : String
  campaigns : String
deriving DecidableEq, Repr

/-- The `Plan` interface of the `PlanSelectionModal` component.  The purely
presentational `icon` (a React node), the numeric `price` (a floating-point
display value) and the optional `popular` badge are omitted; the fields the
entitlement claims read — `id`, feature inclusion and quota limits — are kept
verbatim. -/
structure Plan where
  id : String
  name : String
  priceLabel : String
  description : String
  features : List PlanFeature
  limits : PlanLimits
deriving DecidableEq, Repr

/-- The static `plans` catalog of the `PlanSelectionModal` component, in source
order free, starter, pro, scale. -/
def plans : List Plan :=
  [{ id := "free"
     name := "Free"
     priceLabel := "Grátis"
     description := "Teste a qualidade da prospecção e da IA"
     features :=
       [⟨"Busca Google (Localização/Nicho)", true⟩,
        ⟨"Busca Instagram (Seguidores/Atividade)", true⟩,
        ⟨"Filtros Avançados de Qualificação", false⟩,
        ⟨"Instagram Direct", true⟩,
        ⟨"WhatsApp (Simulação)", false⟩,
        ⟨"WhatsApp Business API Oficial", false⟩,
        ⟨"Dashboard Básico", true⟩,
        ⟨"Histórico de Interações", true⟩,
        ⟨"Relatórios de Funil", false⟩,
        ⟨"Comparativo de Campanhas", false⟩,
        ⟨"Integração com CRM", false⟩,
        ⟨"Suporte por Email", false⟩,
        ⟨"Suporte Prioritário", false⟩,
        ⟨"SSO (Single Sign-On)", false⟩]
     limits := ⟨"50/mês", "1 Agente", "1 Campanha"⟩ },
   { id := "starter"
     name := "Starter"
     priceLabel := "R$ 199,90"
     description := "Ideal para empreendedores iniciando"
     features :=
       [⟨"Busca Google (Localização/Nicho)", true⟩,
        ⟨"Busca Instagram (Seguidores/Atividade)", true⟩,
        ⟨"Filtros Avançados de Qualificação", true⟩,
        ⟨"Instagram Direct", true⟩,
        ⟨"WhatsApp (Simulação)", true⟩,
        ⟨"WhatsApp Business API Oficial", false⟩,
        ⟨"Dashboard Básico", true⟩,
        ⟨"Histórico de Interações", true⟩,
        ⟨"Relatórios de Funil", true⟩,
        ⟨"Comparativo de Campanhas", false⟩,
        ⟨"Integração com CRM", false⟩,
        ⟨"Suporte por Email", true⟩,
        ⟨"Suporte Prioritário", false⟩,
        ⟨"SSO (Single Sign-On)", false⟩]
     limits := ⟨"500/mês", "1 Agente", "3 Campanhas"⟩ },
   { id := "pro"
     name := "Pro"
     priceLabel := "R$ 399,90"
     description := "Para agências que buscam escala"
     features :=
       [⟨"Busca Google (Localização/Nicho)", true⟩,
        ⟨"Busca Instagram (Seguidores/Atividade)", true⟩,
        ⟨"Filtros Avançados de Qualificação", true⟩,
        ⟨"Instagram Direct", true⟩,
        ⟨"WhatsApp (Simulação)", true⟩,
        ⟨"WhatsApp Business API Oficial", true⟩,
        ⟨"Dashboard Básico", true⟩,
        ⟨"Histórico de Interações", true⟩,
        ⟨"Relatórios de Funil", true⟩,
        ⟨"Comparativo de Campanhas", true⟩,
        ⟨"Integração com CRM", true⟩,
        ⟨"Suporte por Email", true⟩,
        ⟨"Suporte Prioritário", false⟩,
        ⟨"SSO (Single Sign-On)", false⟩]
     limits := ⟨"2.000/mês", "5 Agentes", "10 Campanhas"⟩ },
   { id := "scale"
     name := "Scale"
     priceLabel := "R$ 799,90"
     description := "Para grandes agências"
     features :=
       [⟨"Busca Google (Localização/Nicho)", true⟩,
        ⟨"Busca Instagram (Seguidores/Atividade)", true⟩,
        ⟨"Filtros Avançados de Qualificação", true⟩,
        ⟨"Instagram Direct", true⟩,
        ⟨"WhatsApp (Simulação)", true⟩,
        ⟨"WhatsApp Business API Oficial", true⟩,
        ⟨"Dashboard Básico", true⟩,
        ⟨"Histórico de Interações", true⟩,
        ⟨"Relatórios de Funil", true⟩,
        ⟨"Comparativo de Campanhas", true⟩,
        ⟨"Integração com CRM", true⟩,
        ⟨"Suporte por Email", true⟩,
        ⟨"Suporte Prioritário", true⟩,
        ⟨"SSO (Single Sign-On)", true⟩]
     limits := ⟨"Ilimitado", "Ilimitado", "Ilimitado"⟩ }]

/-- The `allFeatures` list of the `PlanSelectionModal` component: every feature
name of the comparison table. -/
def allFeatures : List String :=
  ["Busca Google (Localização/Nicho)",
   "Busca Instagram (Seguidores/Atividade)",
   "Filtros Avançados de Qualificação",
   "Instagram Direct",
   "WhatsApp (Simulação)",
   "WhatsApp Business API Oficial",
   "Dashboard Básico",
   "Histórico de Interações",
   "Relatórios de Funil",
   "Comparativo de Campanhas",
   "Integração com CRM",
   "Suporte por Email",
   "Suporte Prioritário",
   "SSO (Single Sign-On)"]

/-- Whether a plan of the catalog includes the feature of the given name
(`false` when the name is not listed). -/
def featureIncluded (p : Plan) (featureName : String) : Bool :=
  ((p.features.find? (fun f => f.name = featureName)).map (fun f => f.included)).getD false

/-- Decimal value of a list of digit characters. -/
def digitsToNat (cs : List Char) : Nat :=
  cs.foldl (fun acc c => acc * 10 + (c.toNat - 48)) 0

/-- Numeric reading of a quota display string of the catalog: `none` for
`"Ilimitado"`, otherwise the number formed by its digit characters (so
`"50/mês" ↦ 50`, `"2.000/mês" ↦ 2000`, `"1 Agente" ↦ 1`). -/
def quotaNum (s : String) : Option Nat :=
  if s = "Ilimitado" then none
  else some (digitsToNat (s.toList.filter Char.isDigit))

/-- Order on read quota values: a finite quota is at most any unlimited quota
or any larger-or-equal finite quota; an unlimited quota is at most only an
unlimited quota. -/
def quotaLE : Option Nat → Option Nat → Bool
  | _, none => true
  | none, some _ => false
  | some x, some y => x ≤ y

/-- `entitlementLE p q`: plan `q` is at least as permissive as plan `p` — every
catalog feature included in `p` is included in `q`, and each of the three
quotas of `q` reads same-or-larger or unlimited. -/
def entitlementLE (p q : Plan) : Bool :=
  (allFeatures.all fun n => !featureIncluded p n || featureIncluded q n) &&
    quotaLE (quotaNum p.limits.prospects) (quotaNum q.limits.prospects) &&
    quotaLE (quotaNum p.limits.agents) (quotaNum q.limits.agents) &&
    quotaLE (quotaNum p.limits.campaigns) (quotaNum q.limits.campaigns)

/-- A quota value of the Entitlement Evaluator: a base quota is either the
unlimited sentinel or a (non-negative) integer. -/
inductive QuotaVal where
  | unlimited
  | finite (n : Int)
deriving DecidableEq, Repr

/-- Modelled from the spec: the backend Entitlement Evaluator's `remaining`
(spec §4.2) is not among the repository sources (only the frontend client is
present); defined from the spec's words: `entitlement.quota + usage.addOnQuota
- usage.used`, clamped at zero from below, and the unlimited sentinel returned
untouched when the base quota is unlimited. -/
def remaining (base : QuotaVal) (addOnQuota used : Int) : QuotaVal :=
  match base with
  | .unlimited => .unlimited
  | .finite q => .finite (max (q + addOnQuota - used) 0)

/-- Modelled from the spec: the backend Entitlement Evaluator's `hasQuota`
(spec §4.2) is not among the repository sources; defined from the spec's words:
true iff the base quota is unlimited, or `used < base + addOn`. -/
def hasQuota (base : QuotaVal) (addOnQuota used : Int) : Bool :=
  match base with
  | .unlimited => true
  | .finite q => used < q + addOnQuota

/-- A usage snapshot with every counter and limit at zero and every flag off,
used as the base of the concrete test snapshots below. -/
def zeroSnapshot : UsageLimits :=
  { plan_tier := "free"
    leads_limit := 0, leads_used := 0, leads_remaining := 0
    agents_limit := 0, agents_used := 0, agents_remaining := 0
    campaigns_limit := 0, campaigns_used := 0, campaigns_remaining := 0
    whatsapp_enabled := false, whatsapp_official_api := false
    advanced_filters := false, funnel_reports := false
    campaign_comparison := false, crm_integration := false
    priority_support := false, sso := false }

/-- C6: the top tier is terminal — `getNextPlan "scale"` is `none`, and for
every upgrade reason `getSuggestedPlan "scale"` returns `"scale"`. -/
theorem top_tier_terminal :
    getNextPlan "scale" = none ∧
      ∀ r : UpgradeReason, getSuggestedPlan "scale" r = "scale" := by
  decide

/-- C1: for every tier of the plan order that has a next tier and every upgrade
reason, `getSuggestedPlan` returns whichever of the feature's minimum plan and
the next plan sits higher in the plan order; in particular a Pro user asking
for priority support is sent to Scale. -/
theorem getSuggestedPlan_max_min_next :
    (∀ t ∈ planOrder, ∀ r : UpgradeReason, ∀ n ∈ (getNextPlan t).toList,
        getSuggestedPlan t r =
          if jsIndexOf planOrder (MINIMUM_PLAN_FOR_FEATURE r) ≤ jsIndexOf planOrder n
          then n else MINIMUM_PLAN_FOR_FEATURE r) ∧
      getSuggestedPlan "pro" .priority_support = "scale" := by
  decide

/-- Witness for C1 at the concrete tier `"free"` and reason `general`. -/
theorem getSuggestedPlan_max_min_next_witness :
    getSuggestedPlan "free" .general =
      (if jsIndexOf planOrder (MINIMUM_PLAN_FOR_FEATURE .general) ≤ jsIndexOf planOrder "starter"
       then "starter" else MINIMUM_PLAN_FOR_FEATURE .general) :=
  getSuggestedPlan_max_min_next.1 "free" (by decide) .general "starter" (by decide)

/-- C5: the suggestion never regresses — for every tier of the plan order and
every upgrade reason, the suggested plan's position in the plan order is at
least the current tier's position and at least the position of the feature's
minimum plan. -/
theorem suggestion_never_regresses :
    ∀ t ∈ planOrder, ∀ r : UpgradeReason,
      jsIndexOf planOrder t ≤ jsIndexOf planOrder (getSuggestedPlan t r) ∧
        jsIndexOf planOrder (MINIMUM_PLAN_FOR_FEATURE r) ≤
          jsIndexOf planOrder (getSuggestedPlan t r) := by
  decide

/-- Witness for C5 at the concrete tier `"free"` and reason `sso`. -/
theorem suggestion_never_regresses_witness :
    jsIndexOf planOrder "free" ≤ jsIndexOf planOrder (getSuggestedPlan "free" .sso) ∧
      jsIndexOf planOrder (MINIMUM_PLAN_FOR_FEATURE .sso) ≤
        jsIndexOf planOrder (getSuggestedPlan "free" .sso) :=
  suggestion_never_regresses "free" (by decide) .sso

/-- C3: each quota check reports quota available iff the limit is the `-1`
unlimited sentinel or `used` is strictly below the limit; in particular with
limit `500` and used `500` there is no quota, with used `499` there is, and
with the unlimited sentinel there is for any used value. -/
theorem canCreate_quota_iff :
    (∀ u : UsageLimits,
        (canCreateLead (some u) = true ↔ (u.leads_limit = -1 ∨ u.leads_used < u.leads_limit)) ∧
        (canCreateAgent (some u) = true ↔ (u.agents_limit = -1 ∨ u.agents_used < u.agents_limit)) ∧
        (canCreateCampaign (some u) = true ↔
          (u.campaigns_limit = -1 ∨ u.campaigns_used < u.campaigns_limit)) ∧
        ((checkLeadsLimit (some u)).1 = true ↔
          (u.leads_limit = -1 ∨ u.leads_used < u.leads_limit)) ∧
        ((checkAgentsLimit (some u)).1 = true ↔
          (u.agents_limit = -1 ∨ u.agents_used < u.agents_limit)) ∧
        ((checkCampaignsLimit (some u)).1 = true ↔
          (u.campaigns_limit = -1 ∨ u.campaigns_used < u.campaigns_limit))) ∧
      canCreateLead (some { zeroSnapshot with leads_limit := 500, leads_used := 500 }) = false ∧
      canCreateLead (some { zeroSnapshot with leads_limit := 500, leads_used := 499 }) = true ∧
      canCreateLead (some { zeroSnapshot with leads_limit := -1, leads_used := 1000000 }) = true := by
  refine ⟨fun u => ⟨?_, ?_, ?_, ?_, ?_, ?_⟩, by decide, by decide, by decide⟩
  · by_cases h : u.leads_limit = -1 <;> simp [canCreateLead, h]
  · by_cases h : u.agents_limit = -1 <;> simp [canCreateAgent, h]
  · by_cases h : u.campaigns_limit = -1 <;> simp [canCreateCampaign, h]
  · simp only [checkLeadsLimit]
    split_ifs with h1 h2 <;> simp [h1] <;> omega
  · simp only [checkAgentsLimit]
    split_ifs with h1 h2 <;> simp [h1] <;> omega
  · simp only [checkCampaignsLimit]
    split_ifs with h1 h2 <;> simp [h1] <;> omega

/-- C4: purchased add-on quota extends the base quota additively — checking
quota with base `q` and add-on `a` is checking quota with base `q + a` and no
add-on; concretely, base `500`, used `500`, add-on `500` leaves `500` remaining
and the quota check reports quota available. -/
theorem addOn_additivity :
    (∀ q a u : Int, hasQuota (.finite q) a u = hasQuota (.finite (q + a)) 0 u) ∧
      remaining (.finite 500) 500 500 = .finite 500 ∧
      hasQuota (.finite 500) 500 500 = true := by
  refine ⟨fun q a u => ?_, by decide, by decide⟩
  simp [hasQuota]

/-- C8: with no loaded usage snapshot (`usageLimits` is `null`), every check of
`usePlanLimits` fails open — the three quota checks, the three modal-raising
limit checks and `checkFeature` all return `true` and raise no modal, for every
argument. -/
theorem fail_open_when_unloaded :
    canCreateLead none = true ∧ canCreateAgent none = true ∧ canCreateCampaign none = true ∧
      checkLeadsLimit none = (true, none) ∧ checkAgentsLimit none = (true, none) ∧
      checkCampaignsLimit none = (true, none) ∧
      ∀ (feature : UsageLimits → Bool) (featureName suggestedPlan : String),
        checkFeature none feature featureName suggestedPlan = (true, none) :=
  ⟨rfl, rfl, rfl, rfl, rfl, rfl, fun _ _ _ => rfl⟩

/-- C9: the plan catalog lists the tiers in the plan order, and it is monotone —
for every pair of catalog plans in that order, every feature included in the
lower plan is included in the higher one, and each quota of the higher plan
reads same-or-larger or unlimited. -/
theorem plan_catalog_monotone :
    plans.map (fun p => p.id) = planOrder ∧
      plans.Pairwise (fun p q => entitlementLE p q = true) := by
  decide

/-- C10: `openUpgradeModal` always stores a context whose `suggestedPlan` is
defined — the caller's value when given, else the `MINIMUM_PLAN_FOR_FEATURE`
entry for the context's reason — and the 403 interceptor's call stores the
table entry for the classified reason. -/
theorem openUpgradeModal_fills_suggestedPlan :
    (∀ ctx : UpgradeContext,
        (openUpgradeModal ctx).context =
          some { ctx with
            suggestedPlan :=
              some (ctx.suggestedPlan.getD (MINIMUM_PLAN_FOR_FEATURE ctx.reason)) }) ∧
      (∀ ctx : UpgradeContext, ∃ c, (openUpgradeModal ctx).context = some c ∧
        c.suggestedPlan.isSome = true) ∧
      ∀ detail : String, ∃ c, (interceptorOn403 detail).context = some c ∧
        c.suggestedPlan = some (MINIMUM_PLAN_FOR_FEATURE (detectUpgradeReason detail)) :=
  ⟨fun _ => rfl, fun _ => ⟨_, rfl, rfl⟩, fun _ => ⟨_, rfl, rfl⟩⟩

/-- C2 counterexample: a blocked agents quota check carries suggested plan
`"pro"`, which differs from the `MINIMUM_PLAN_FOR_FEATURE` entry `"starter"`
for `agents_limit` — the blocked context does not always carry the static
table's entry. -/
theorem agents_suggestedPlan_ne_table :
    (checkAgentsLimit (some { zeroSnapshot with agents_limit := 1, agents_used := 1 })).1
        = false ∧
      (checkAgentsLimit (some { zeroSnapshot with agents_limit := 1, agents_used := 1 })).2
        = some (showAgentsLimitReached 1 1) ∧
      (showAgentsLimitReached 1 1).context.map (fun c => c.suggestedPlan)
        = some (some "pro") ∧
      MINIMUM_PLAN_FOR_FEATURE .agents_limit = "starter" ∧
      ("pro" : String) ≠ "starter" := by
  decide

/-- C2 as amended: the blocked leads and campaigns contexts carry the static
table's entry (`"starter"`), the blocked agents context carries the hardcoded
`"pro"`, and the concrete Free-tier scenario with leads limit `50` and used
`50` blocks with reason `leads_limit`, current value `50`, limit value `50` and
suggested plan `"starter"`. -/
theorem quota_block_suggestedPlan_amended :
    (∀ used limit : Int,
        (showLeadsLimitReached used limit).context.map (fun c => c.suggestedPlan)
            = some (some (MINIMUM_PLAN_FOR_FEATURE .leads_limit)) ∧
          (showCampaignsLimitReached used limit).context.map (fun c => c.suggestedPlan)
            = some (some (MINIMUM_PLAN_FOR_FEATURE .campaigns_limit)) ∧
          (showAgentsLimitReached used limit).context.map (fun c => c.suggestedPlan)
            = some (some "pro")) ∧
      checkLeadsLimit (some { zeroSnapshot with leads_limit := 50, leads_used := 50 }) =
        (false, some { isOpen := true
                       context := some { reason := .leads_limit
                                         currentValue := some 50
                                         limitValue := some 50
                                         suggestedPlan := some "starter" } }) :=
  ⟨fun _ _ => ⟨rfl, rfl, rfl⟩, by decide⟩

/-- `firstMatch` over a table that never maps to `general` returns `general`
exactly when no keyword of the table occurs in the message. -/
theorem firstMatch_general_iff (l : List (String × UpgradeReason)) (m : String)
    (hl : ∀ p ∈ l, p.2 ≠ UpgradeReason.general) :
    firstMatch l m = .general ↔ ∀ p ∈ l, includesSubstr m p.1 = false := by
  induction l with
  | nil => simp [firstMatch]
  | cons p rest ih =>
    obtain ⟨k, r⟩ := p
    have hr : r ≠ UpgradeReason.general := hl (k, r) (List.mem_cons_self _ _)
    have hrest : ∀ q ∈ rest, q.2 ≠ UpgradeReason.general :=
      fun q hq => hl q (List.mem_cons_of_mem _ hq)
    simp only [firstMatch]
    by_cases h : includesSubstr m k = true
    · simp [h, hr]
    · simp only [Bool.not_eq_true] at h
      simp [h, ih hrest]

/-- C7: `detectUpgradeReason` returns `general` exactly when no keyword of the
static table occurs in the lowercased message, and any message containing
`"limite de agentes"` but neither of the two earlier table keywords is
classified `agents_limit`. -/
theorem detectUpgradeReason_spec :
    ∀ msg : String,
      (detectUpgradeReason msg = .general ↔
        ∀ p ∈ ERROR_TO_UPGRADE_REASON, includesSubstr (jsToLowerCase msg) p.1 = false) ∧
      (includesSubstr (jsToLowerCase msg) "limite de agentes" = true →
        includesSubstr (jsToLowerCase msg) "limite de leads" = false →
        includesSubstr (jsToLowerCase msg) "limite de prospects" = false →
        detectUpgradeReason msg = .agents_limit) := by
  intro msg
  constructor
  · exact firstMatch_general_iff ERROR_TO_UPGRADE_REASON (jsToLowerCase msg) (by decide)
  · intro h1 h2 h3
    simp only [detectUpgradeReason, ERROR_TO_UPGRADE_REASON, firstMatch, h1, h2, h3,
      if_true, if_false]
    rfl

/-- Witness for C7 at a concrete rejection message. -/
theorem detectUpgradeReason_spec_witness :
    detectUpgradeReason "Você atingiu o limite de agentes do seu plano" = .agents_limit :=
  (detectUpgradeReason_spec "Você atingiu o limite de agentes do seu plano").2
    (by decide) (by decide) (by decide)

end ProspectAI
